import Mathlib

/-!
Verification development for the zenith-image-generator gateway.

The definitions below are a shallow embedding of the TypeScript source:
  - src/apps/api/src/utils/gradio.ts          (queue protocol client)
  - src/apps/api/src/openai/model-resolver.ts (model routing)
  - src/apps/api/src/openai/chat.ts           (chat handler auth slice)
  - src/apps/api/src/channels/huggingface/image.ts (failover, seeds)
  - src/unnamed/part_001                      (a4f image capability)

JavaScript strings are modelled by Lean `String` values; all inputs of
interest are ASCII so UTF-16 index arithmetic coincides with character
counts.  The JS string primitives used by the source (`startsWith`,
`substring`, `trim`, `split`, `toLowerCase`, `includes`, `slice`) are
modelled by the `js*` helpers below, operating on the character list.
-/

/-- JS `a.startsWith(b)`. -/
def jsStartsWith (s pre : String) : Bool :=
  List.isPrefixOf pre.data s.data

/-- JS `s.substring(n)` / `s.slice(n)` (drop the first `n` code units). -/
def jsDrop (s : String) (n : Nat) : String :=
  ⟨s.data.drop n⟩

/-- JS `s.substring(0, n)` / `s.slice(0, n)` (first `n` code units). -/
def jsTake (s : String) (n : Nat) : String :=
  ⟨s.data.take n⟩

/-- JS whitespace test used by `trim` (ASCII fragment, enough for our inputs). -/
def jsIsWS (c : Char) : Bool :=
  c = ' ' ∨ c = '\t' ∨ c = '\n' ∨ c = '\r'

/-- JS `s.trim()`. -/
def jsTrim (s : String) : String :=
  ⟨((s.data.dropWhile jsIsWS).reverse.dropWhile jsIsWS).reverse⟩

/-- JS `s.toLowerCase()` (ASCII). -/
def jsToLower (s : String) : String :=
  ⟨s.data.map Char.toLower⟩

/-- Structural infix test on character lists (kernel-reducible). -/
def listInfix (pat : List Char) : List Char → Bool
  | [] => List.isPrefixOf pat []
  | c :: rest => List.isPrefixOf pat (c :: rest) || listInfix pat rest

/-- JS `s.includes(sub)`. -/
def jsIncludes (s sub : String) : Bool :=
  listInfix sub.data s.data

/-- JS `s.split('\n')`, on the character list. -/
def jsSplitLinesAux : List Char → List Char → List String
  | [], acc => [⟨acc.reverse⟩]
  | c :: rest, acc =>
    if c = '\n' then ⟨acc.reverse⟩ :: jsSplitLinesAux rest []
    else jsSplitLinesAux rest (c :: acc)

/-- JS `s.split('\n')`. -/
def jsSplitLines (s : String) : List String :=
  jsSplitLinesAux s.data []

/-- JS `a || b` for optional strings: `none` and `""` are falsy. -/
def jsOrOptStr (a b : Option String) : Option String :=
  match a with
  | some s => if s = "" then b else some s
  | none => b

/-- JS `a || b` where `b` is a plain string default. -/
def jsOrStr (a : Option String) (b : String) : String :=
  match a with
  | some s => if s = "" then b else s
  | none => b

-- ---------------------------------------------------------------------------
-- Error taxonomy
-- ---------------------------------------------------------------------------

/-- The closed ApiError code taxonomy (spec section 3; shared package). -/
inductive ApiErrorCode
  | AUTH_REQUIRED
  | AUTH_INVALID
  | RATE_LIMITED
  | QUOTA_EXCEEDED
  | TIMEOUT
  | PROVIDER_ERROR
  | INVALID_PARAMS
  | INVALID_PROMPT
  | GENERATION_FAILED
deriving DecidableEq, Repr

/-- Modelled from the spec: ApiError carries a code, the attributed provider,
a message, and an optional details bag; of the details bag only the
`upstream` string field is consulted by code under src
(`isNotFoundProviderError`), so it is modelled as `detailsUpstream`. -/
structure ApiError where
  code : ApiErrorCode
  provider : String
  message : String
  detailsUpstream : Option String
deriving DecidableEq, Repr

namespace Errors

/-- Modelled from the spec: the shared `Errors` factory (packages/shared is
not under src apart from its wire types).  Message texts are placeholders;
no theorem below depends on a factory's message text except where the
source passes the text through explicitly (providerError, authInvalid). -/
def authRequired (provider : String) : ApiError :=
  ⟨.AUTH_REQUIRED, provider, "Authentication required", none⟩

/-- Modelled from the spec: AUTH_INVALID error carrying the given message. -/
def authInvalid (provider message : String) : ApiError :=
  ⟨.AUTH_INVALID, provider, message, none⟩

/-- Modelled from the spec: RATE_LIMITED error. -/
def rateLimited (provider : String) : ApiError :=
  ⟨.RATE_LIMITED, provider, "Rate limited", none⟩

/-- Modelled from the spec: QUOTA_EXCEEDED error. -/
def quotaExceeded (provider : String) : ApiError :=
  ⟨.QUOTA_EXCEEDED, provider, "Quota exceeded", none⟩

/-- Modelled from the spec: TIMEOUT error. -/
def timeout (provider : String) : ApiError :=
  ⟨.TIMEOUT, provider, "Request timed out", none⟩

/-- Modelled from the spec: PROVIDER_ERROR carrying the given message. -/
def providerError (provider message : String) : ApiError :=
  ⟨.PROVIDER_ERROR, provider, message, none⟩

/-- Modelled from the spec: INVALID_PARAMS error for a named parameter. -/
def invalidParams (param message : String) : ApiError :=
  ⟨.INVALID_PARAMS, "", param ++ ": " ++ message, none⟩

/-- Modelled from the spec: INVALID_PROMPT error. -/
def invalidPrompt (message : String) : ApiError :=
  ⟨.INVALID_PROMPT, "", message, none⟩

/-- Modelled from the spec: GENERATION_FAILED error carrying the message. -/
def generationFailed (provider message : String) : ApiError :=
  ⟨.GENERATION_FAILED, provider, message, none⟩

end Errors

-- ---------------------------------------------------------------------------
-- gradio.ts: provider-error classifier
-- ---------------------------------------------------------------------------

/-- `PROVIDER_NAME` in src/apps/api/src/utils/gradio.ts. -/
def PROVIDER_NAME : String := "HuggingFace"

/-- `MAX_GRADIO_RETRIES` in src/apps/api/src/utils/gradio.ts. -/
def MAX_GRADIO_RETRIES : Nat := 3

/-- `parseHuggingFaceError` from src/apps/api/src/utils/gradio.ts: maps an
HTTP status and/or lower-cased message substrings to an ApiError. -/
def parseHuggingFaceError (message : String) (status : Option Nat) : ApiError :=
  let lowerMsg := jsToLower message
  if status = some 429 || jsIncludes lowerMsg "rate limit" ||
      jsIncludes lowerMsg "too many requests" then
    Errors.rateLimited PROVIDER_NAME
  else if jsIncludes lowerMsg "quota" || jsIncludes lowerMsg "exceeded" then
    Errors.quotaExceeded PROVIDER_NAME
  else if status = some 401 || status = some 403 ||
      jsIncludes lowerMsg "unauthorized" || jsIncludes lowerMsg "forbidden" then
    Errors.authInvalid PROVIDER_NAME message
  else if jsIncludes lowerMsg "timeout" || jsIncludes lowerMsg "timed out" then
    Errors.timeout PROVIDER_NAME
  else if status = some 503 || jsIncludes lowerMsg "unavailable" ||
      jsIncludes lowerMsg "loading" then
    Errors.providerError PROVIDER_NAME "Service is temporarily unavailable or loading"
  else
    Errors.providerError PROVIDER_NAME message

-- ---------------------------------------------------------------------------
-- JSON values (platform JSON.parse / JSON.stringify are modelled abstractly)
-- ---------------------------------------------------------------------------

/-- JSON values, as produced by the runtime `JSON.parse`. -/
inductive Json
  | null
  | bool (b : Bool)
  | num (n : Int)
  | str (s : String)
  | arr (xs : List Json)
  | obj (fields : List (String × Json))

/-- JS truthiness of a JSON value. -/
def jsTruthy : Json → Bool
  | .null => false
  | .bool b => b
  | .num n => n != 0
  | .str s => s != ""
  | .arr _ => true
  | .obj _ => true

/-- JS optional-chained property access `j?.k`: `none` models `undefined`. -/
def Json.getProp : Json → String → Option Json
  | .obj fields, k => fields.lookup k
  | _, _ => none

/-- JS `result[i]` on the normalized payload list; out-of-range access gives
`undefined`, modelled as `Json.null` (both fail the typeof checks below the
same way). -/
def jsIndex (xs : List Json) (i : Nat) : Json :=
  (xs.get? i).getD .null

-- ---------------------------------------------------------------------------
-- gradio.ts: extractCompleteEventData
-- ---------------------------------------------------------------------------

/-- Failure of the SSE extraction: either a typed ApiError thrown by the
source, or a raw JS SyntaxError escaping from `JSON.parse` on a `complete`
payload (the source does not catch that one). -/
inductive SseFailure
  | api (e : ApiError)
  | jsSyntaxError (raw : String)

/-- The message-selection chain of the `error` event branch
(`errorData?.error || errorData?.message || JSON.stringify(errorData) ||
'Unknown error'`).  `js` models the runtime `JSON.stringify`.  A truthy
non-string field would make the JS code fail later on `toLowerCase`; that
path is outside every theorem below and is modelled by stringification. -/
def errorMsgOf (js : Json → String) (j : Json) : String :=
  let pick : Option Json :=
    match j.getProp "error" with
    | some x => if jsTruthy x then some x else none
    | none => none
  let pick : Option Json :=
    match pick with
    | some x => some x
    | none =>
      match j.getProp "message" with
      | some x => if jsTruthy x then some x else none
      | none => none
  match pick with
  | some (.str s) => s
  | some x => js x
  | none =>
    let s := js j
    if s = "" then "Unknown error" else s

/-- The line scan of `extractCompleteEventData`: tracks the most recent
`event:` value; returns at the first `data:` line whose current event is
`complete` or `error`; `none` when the lines are exhausted without either.
`jp` models the runtime `JSON.parse` (`none` = SyntaxError). -/
def scanEvents (jp : String → Option Json) (js : Json → String) :
    List String → String → Option (Except SseFailure Json)
  | [], _ => none
  | line :: rest, currentEvent =>
    if jsStartsWith line "event:" then
      scanEvents jp js rest (jsTrim (jsDrop line 6))
    else if jsStartsWith line "data:" then
      let jsonData := jsTrim (jsDrop line 5)
      if currentEvent = "complete" then
        some (match jp jsonData with
          | some j => .ok j
          | none => .error (.jsSyntaxError jsonData))
      else if currentEvent = "error" then
        some (.error (.api (match jp jsonData with
          | some j => parseHuggingFaceError (errorMsgOf js j) none
          | none =>
            parseHuggingFaceError
              (if jsonData = "" then "Unknown SSE error" else jsonData) none)))
      else scanEvents jp js rest currentEvent
    else scanEvents jp js rest currentEvent

/-- `extractCompleteEventData` from src/apps/api/src/utils/gradio.ts. -/
def extractCompleteEventData (jp : String → Option Json) (js : Json → String)
    (sseStream : String) : Except SseFailure Json :=
  match scanEvents jp js (jsSplitLines sseStream) "" with
  | some r => r
  | none =>
    .error (.api (Errors.providerError PROVIDER_NAME
      ("Unexpected SSE response: " ++ jsTake sseStream 200)))

-- ---------------------------------------------------------------------------
-- gradio.ts: callGradioApi queue-submission loop and payload normalization
-- ---------------------------------------------------------------------------

/-- One HTTP response of the queue-submission endpoint, as observed by the
loop in `callGradioApi`: a 2xx response carrying the parsed body's optional
`event_id`, or a non-2xx response with its status and (possibly empty)
error text. -/
inductive QueueResp
  | ok (eventId : Option String)
  | err (status : Nat) (errText : String)
deriving DecidableEq, Repr

/-- The thrown message `${status} ${queueUrl}${errText ? `: ${errText}` : ''}`. -/
def queueErrMsg (status : Nat) (url errText : String) : String :=
  toString status ++ " " ++ url ++ (if errText = "" then "" else ": " ++ errText)

/-- Accumulated observable behaviour of the submission loop: how many fetches
were made, which sleeps (ms) happened between them, and the loop's outcome
(`ok` = the parsed 2xx body's optional event_id). -/
structure SubmitTrace where
  attempts : Nat
  sleeps : List Nat
  outcome : Except ApiError (Option String)
deriving Repr

/-- The `for (let attempt = 0; attempt < MAX_GRADIO_RETRIES; attempt++)`
submission loop of `callGradioApi`, with the transport modelled as the map
`responses` from attempt index to response.  `fuel` is the number of loop
iterations left (`MAX_GRADIO_RETRIES - attempt`); the fuel-exhausted case is
the loop falling through with `queueData` still null. -/
def submitAttempts (responses : Nat → QueueResp) (url : String) :
    Nat → Nat → SubmitTrace
  | _, 0 =>
    ⟨0, [], .error (Errors.providerError PROVIDER_NAME
      ("Queue request failed after retries: " ++ url))⟩
  | attempt, fuel + 1 =>
    match responses attempt with
    | .ok eid => ⟨1, [], .ok eid⟩
    | .err status errText =>
      let shouldRetry :=
        decide (attempt < MAX_GRADIO_RETRIES - 1) &&
          (status == 404 || status == 503)
      if shouldRetry then
        let rest := submitAttempts responses url (attempt + 1) fuel
        ⟨rest.attempts + 1, 600 * (attempt + 1) :: rest.sleeps, rest.outcome⟩
      else
        ⟨1, [], .error (parseHuggingFaceError (queueErrMsg status url errText)
          (some status))⟩

/-- The whole submission phase of `callGradioApi`: run the loop from attempt
0, then reject a 2xx body that lacks an `event_id`. -/
def callGradioSubmit (responses : Nat → QueueResp) (url : String) :
    SubmitTrace :=
  submitAttempts responses url 0 MAX_GRADIO_RETRIES

/-- The event id the submission phase hands to the polling phase, or the
error it throws (`No event_id returned from queue` on a 2xx body without
an id). -/
def callGradioSubmitResult (responses : Nat → QueueResp) (url : String) :
    Except ApiError String :=
  match (callGradioSubmit responses url).outcome with
  | .error e => .error e
  | .ok none => .error (Errors.providerError PROVIDER_NAME
      "No event_id returned from queue")
  | .ok (some eid) => .ok eid

/-- The normalization of the `complete` payload at the end of
`callGradioApi`: a bare array is returned as-is; an object whose `data`
property is an array yields that array; anything else (including `null`,
which is falsy) throws PROVIDER_ERROR with the stringified payload
truncated to 200 characters. -/
def normalizeComplete (js : Json → String) (complete : Json) :
    Except ApiError (List Json) :=
  match complete with
  | .arr xs => .ok xs
  | .obj fields =>
    match fields.lookup "data" with
    | some (.arr xs) => .ok xs
    | _ =>
      .error (Errors.providerError PROVIDER_NAME
        ("Unexpected complete payload: " ++ jsTake (js (.obj fields)) 200))
  | other =>
    .error (Errors.providerError PROVIDER_NAME
      ("Unexpected complete payload: " ++ jsTake (js other) 200))

-- ---------------------------------------------------------------------------
-- model-resolver.ts
-- ---------------------------------------------------------------------------

/-- `DEFAULT_HF_MODEL` from src/apps/api/src/openai/model-resolver.ts. -/
def DEFAULT_HF_MODEL : String := "z-image-turbo"

/-- `HF_MODELS` from model-resolver.ts (set membership as a list). -/
def HF_MODELS : List String :=
  ["z-image-turbo", "qwen-image-fast", "ovis-image", "flux-1-schnell"]

/-- `GITEE_MODEL_ALIASES` from model-resolver.ts. -/
def GITEE_MODEL_ALIASES (k : String) : Option String :=
  if k = "z-image-turbo" then some "z-image-turbo"
  else if k = "qwen-image" then some "Qwen-Image"
  else if k = "flux-1-krea-dev" then some "FLUX_1-Krea-dev"
  else if k = "flux-1-dev" then some "FLUX.1-dev"
  else none

/-- `MODELSCOPE_MODEL_ALIASES` from model-resolver.ts. -/
def MODELSCOPE_MODEL_ALIASES (k : String) : Option String :=
  if k = "z-image-turbo" then some "Tongyi-MAI/Z-Image-Turbo"
  else if k = "flux-2" then some "black-forest-labs/FLUX.2-dev"
  else if k = "flux-1-krea-dev" then some "black-forest-labs/FLUX.1-Krea-dev"
  else if k = "flux-1" then some "MusePublic/489_ckpt_FLUX_1"
  else none

/-- The `{provider, model}` pair returned by `resolveModel`. -/
structure ResolvedModel where
  provider : String
  model : String
deriving DecidableEq, Repr

/-- The body of `resolveModel` after the defaulting-and-trim line, i.e. the
ordered prefix checks over the already-trimmed model string. -/
def resolveModelTrimmed (model : String) : ResolvedModel :=
  if jsStartsWith model "gitee/" then
    let raw := jsDrop model 6
    ⟨"gitee", (GITEE_MODEL_ALIASES raw).getD raw⟩
  else if jsStartsWith model "ms/" then
    let raw := jsDrop model 3
    ⟨"modelscope", (MODELSCOPE_MODEL_ALIASES raw).getD raw⟩
  else if jsStartsWith model "a4f/" then
    ⟨"a4f", jsDrop model 4⟩
  else
    ⟨"huggingface", if HF_MODELS.contains model then model else DEFAULT_HF_MODEL⟩

/-- `resolveModel` from src/apps/api/src/openai/model-resolver.ts:
`const model = (modelParam || DEFAULT_HF_MODEL).trim()` then the prefix
checks.  `none` models a missing argument. -/
def resolveModel (modelParam : Option String) : ResolvedModel :=
  resolveModelTrimmed (jsTrim (jsOrStr modelParam DEFAULT_HF_MODEL))

-- ---------------------------------------------------------------------------
-- chat.ts: bearer parsing, chat model resolution, handler auth slice
-- ---------------------------------------------------------------------------

/-- The `{providerHint?, token?}` result of `parseChatBearerToken`. -/
structure ParsedAuth where
  providerHint : Option String
  token : Option String
deriving DecidableEq, Repr

/-- One `raw.startsWith(p + ':')` arm of `parseChatBearerToken`. -/
def bearerArm (raw pre hint : String) : Option ParsedAuth :=
  if jsStartsWith raw (pre ++ ":") then
    let token := jsTrim (jsDrop raw (pre.length + 1))
    some (if token = "" then ⟨none, none⟩ else ⟨some hint, some token⟩)
  else none

/-- `parseChatBearerToken` from src/apps/api/src/openai/chat.ts. -/
def parseChatBearerToken (authHeader : Option String) : ParsedAuth :=
  match authHeader with
  | none => ⟨none, none⟩
  | some h =>
    if !jsStartsWith h "Bearer " then ⟨none, none⟩
    else
      let raw := jsTrim (jsDrop h 7)
      if raw = "" then ⟨none, none⟩
      else
        match bearerArm raw "gitee" "gitee" with
        | some r => r
        | none =>
        match bearerArm raw "ms" "modelscope" with
        | some r => r
        | none =>
        match bearerArm raw "hf" "huggingface" with
        | some r => r
        | none =>
        match bearerArm raw "deepseek" "deepseek" with
        | some r => r
        | none =>
        match bearerArm raw "a4f" "a4f" with
        | some r => r
        | none => ⟨none, some raw⟩

/-- The `{channelId, model, forceAnonymous?}` result of `resolveChatModel`
(the optional JS field is modelled as a Bool defaulting to false). -/
structure ResolvedChat where
  channelId : String
  model : String
  forceAnonymous : Bool
deriving DecidableEq, Repr

/-- `resolveChatModel` from src/apps/api/src/openai/chat.ts. -/
def resolveChatModel (model : String) : ResolvedChat :=
  let trimmed := jsTrim model
  if trimmed = "" then ⟨"huggingface", "openai-fast", true⟩
  else
    let customArm : Option ResolvedChat :=
      if jsStartsWith trimmed "custom/" then
        let rest := jsDrop trimmed 7
        let firstSlash := (rest.data.takeWhile (· ≠ '/')).length
        if firstSlash > 0 ∧ firstSlash < rest.data.length then
          let channelId := jsTrim (jsTake rest firstSlash)
          let m := jsTrim (jsDrop rest (firstSlash + 1))
          if channelId = "" then none else some ⟨channelId, m, false⟩
        else none
      else none
    match customArm with
    | some r => r
    | none =>
      if jsStartsWith trimmed "gitee/" then ⟨"gitee", jsDrop trimmed 6, false⟩
      else if jsStartsWith trimmed "ms/" then ⟨"modelscope", jsDrop trimmed 3, false⟩
      else if jsStartsWith trimmed "hf/" then ⟨"huggingface", jsDrop trimmed 3, false⟩
      else if jsStartsWith trimmed "deepseek/" then ⟨"deepseek", jsDrop trimmed 9, false⟩
      else if jsStartsWith trimmed "pollinations/" then
        ⟨"huggingface", jsDrop trimmed 13, true⟩
      else if jsStartsWith trimmed "a4f/" then ⟨"a4f", jsDrop trimmed 4, false⟩
      else ⟨"huggingface", trimmed, true⟩

-- ---------------------------------------------------------------------------
-- Credential rotation engine (token-manager.ts is not under src)
-- ---------------------------------------------------------------------------

/-- Modelled from the spec: the set of credential-scoped error kinds on which
the rotation engine advances to the next credential (section 4.2). -/
def credentialScoped (c : ApiErrorCode) : Bool :=
  c = .AUTH_INVALID ∨ c = .RATE_LIMITED ∨ c = .QUOTA_EXCEEDED

/-- Modelled from the spec: the non-empty-pool iteration of `runWithRotation`
(src/apps/api/src/core/token-manager.ts is not under src; sections 4.2 and
8).  Returns the engine's outcome together with the ordered list of
credentials the operation was invoked on. -/
def rotateGo {α : Type} (op : String → Except ApiError α) :
    String → List String → Except ApiError α × List String
  | c, rest =>
    match op c with
    | .ok v => (.ok v, [c])
    | .error e =>
      if credentialScoped e.code then
        match rest with
        | [] => (.error e, [c])
        | c2 :: rs =>
          let r := rotateGo op c2 rs
          (r.1, c :: r.2)
      else (.error e, [c])

/-- Modelled from the spec: `runWithRotation` / `runWithTokenRotation`
(section 4.2): empty pool invokes the operation anonymously once when
`allowAnonymous`, else fails with AUTH_REQUIRED before any call; a
non-empty pool is iterated by `rotateGo`.  The second component is the
ordered list of operation invocations (each entry the credential passed). -/
def runWithTokenRotation {α : Type} (channelId : String) (tokens : List String)
    (op : Option String → Except ApiError α) (allowAnonymous : Bool) :
    Except ApiError α × List (Option String) :=
  match tokens with
  | [] =>
    if allowAnonymous then (op none, [none])
    else (.error (Errors.authRequired channelId), [])
  | c :: rest =>
    let r := rotateGo (fun t => op (some t)) c rest
    (r.1, r.2.map some)

-- ---------------------------------------------------------------------------
-- chat.ts: the credential-selection and rotation slice of the LLM-chat path
-- of handleChatCompletion (the image path uses the identical gate shape)
-- ---------------------------------------------------------------------------

/-- The channel auth configuration consulted by the handler:
`channel.config.auth.type === 'none'` and `channel.config.auth.optional`. -/
inductive AuthMode
  | noAuth
  | bearer
deriving DecidableEq, Repr

/-- The slice of a registered channel the handler's auth gate reads. -/
structure ChannelSlice where
  id : String
  name : String
  authMode : AuthMode
  authOptional : Bool
  tokens : List String
deriving DecidableEq, Repr

/-- The auth gate and rotation call of handleChatCompletion's LLM path
(src/apps/api/src/openai/chat.ts): provider-hint mismatch check, then
`allowAnonymous` computation, then header-token versus channel-pool
selection, then the empty-pool AUTH_REQUIRED gate, then the rotation
engine.  `parseTokens` (token-manager.ts, not under src) is abstracted as a
parameter; the pair's second component is the ordered list of operation
invocations (empty = no network call). -/
def chatCompletionAuthRun {α : Type} (parseTokens : Option String → List String)
    (channel : ChannelSlice) (resolved : ResolvedChat) (auth : ParsedAuth)
    (op : Option String → Except ApiError α) :
    Except ApiError α × List (Option String) :=
  let hintMismatch : Bool :=
    match auth.providerHint with
    | some h => h != resolved.channelId
    | none => false
  if hintMismatch then
    (.error (Errors.invalidParams "Authorization"
      "Token prefix does not match requested model provider"), [])
  else
    let allowAnonymous :=
      resolved.forceAnonymous || channel.authMode = .noAuth || channel.authOptional
    let headerTokens := if resolved.forceAnonymous then [] else parseTokens auth.token
    let tokens := if headerTokens.isEmpty then channel.tokens else headerTokens
    if !allowAnonymous && tokens.isEmpty then
      (.error (Errors.authRequired channel.name), [])
    else
      runWithTokenRotation channel.id tokens op allowAnonymous

-- ---------------------------------------------------------------------------
-- channels/huggingface/image.ts: not-found classification, failover, seeds
-- ---------------------------------------------------------------------------

/-- `isNotFoundProviderError` from src/apps/api/src/channels/huggingface/
image.ts: a PROVIDER_ERROR whose `details.upstream` text contains "404"
(`(err.details?.upstream || '').includes('404')`). -/
def isNotFoundProviderError (e : ApiError) : Bool :=
  e.code = .PROVIDER_ERROR && jsIncludes (e.detailsUpstream.getD "") "404"

/-- The candidate-base-URL loop of `huggingfaceImage.generate`: one
`attempt` per base URL (abstracting the try-block: `callGradioApi` plus
image-URL extraction, whose own failure is a thrown GENERATION_FAILED);
on a not-found-shaped error record it as `lastErr` and continue, on any
other error abort; after the loop re-throw `lastErr` if the loop never
succeeded, or GENERATION_FAILED when there was no candidate at all. -/
def hfFailover (attempt : String → Except ApiError String) :
    List String → Option ApiError → Except ApiError String
  | [], lastErr =>
    match lastErr with
    | some e => .error e
    | none => .error (Errors.generationFailed "HuggingFace" "No image returned")
  | b :: rest, _ =>
    match attempt b with
    | .ok url => .ok url
    | .error e =>
      if isNotFoundProviderError e then hfFailover attempt rest (some e)
      else .error e

/-- `MAX_INT32` from src/apps/api/src/constants.  Modelled from the spec:
the constants module is not under src; the spec fixes the default seed to a
non-negative 32-bit integer, matching the constant's name. -/
def MAX_INT32 : Int := 2147483647

/-- The literal scanned for by the `qwen-image-fast` seed regex
`/Seed used for generation:\s*(\d+)/`. -/
def seedLit : List Char := "Seed used for generation:".data

/-- Digits-to-number fold (`Number.parseInt(match[1], 10)`). -/
def digitsVal (ds : List Char) : Int :=
  Int.ofNat (ds.foldl (fun acc c => acc * 10 + (c.toNat - '0'.toNat)) 0)

/-- Try to match the seed regex at the head of the character list. -/
def seedMatchAt (cs : List Char) : Option Int :=
  if List.isPrefixOf seedLit cs then
    let rest := (cs.drop seedLit.length).dropWhile jsIsWS
    let ds := rest.takeWhile Char.isDigit
    if ds.isEmpty then none else some (digitsVal ds)
  else none

/-- Scan for the first position where the seed regex matches. -/
def findSeedScan : List Char → Option Int
  | [] => none
  | c :: rest =>
    match seedMatchAt (c :: rest) with
    | some n => some n
    | none => findSeedScan rest

/-- `result[1].match(/Seed used for generation:\s*(\d+)/)` with the capture
parsed as a decimal number. -/
def findSeedInText (s : String) : Option Int :=
  findSeedScan s.data

/-- `parseSeedFromResponse` from src/apps/api/src/channels/huggingface/
image.ts: for `qwen-image-fast` with a string `result[1]`, the regex
capture; otherwise a numeric `result[1]`; otherwise the fallback seed. -/
def parseSeedFromResponse (modelId : String) (result : List Json)
    (fallbackSeed : Int) : Int :=
  let r1 := jsIndex result 1
  let fromStatus : Option Int :=
    if modelId = "qwen-image-fast" then
      match r1 with
      | .str s => findSeedInText s
      | _ => none
    else none
  match fromStatus with
  | some n => n
  | none =>
    match r1 with
    | .num n => n
    | _ => fallbackSeed

/-- The slice of ImageRequest consulted by the seed logic of the image
capabilities (core/types.ts is not under src; fields as used at the call
sites in huggingface/image.ts and the a4f capability). -/
structure ImageRequest where
  prompt : String
  width : Nat
  height : Nat
  model : Option String
  seed : Option Int
  sourceImageUrl : Option String
deriving DecidableEq, Repr

/-- ImageResult as produced by the image capabilities: url, the seed
recorded, the resolved model id. -/
structure ImageResult where
  url : String
  seed : Int
  model : String
deriving DecidableEq, Repr

/-- `const seed = request.seed ?? Math.floor(Math.random() * MAX_INT32)` in
`huggingfaceImage.generate`; `rand` is the value drawn from the injected
entropy source when the request carries no seed. -/
def hfSeed (request : ImageRequest) (rand : Int) : Int :=
  request.seed.getD rand

/-- `const modelId = request.model || 'z-image-turbo'`. -/
def hfModelId (request : ImageRequest) : String :=
  jsOrStr request.model "z-image-turbo"

/-- The seed recorded in the ImageResult of `huggingfaceImage.generate`:
`parseSeedFromResponse(modelId, data, seed)` over the payload `data`
returned by the successful candidate. -/
def hfRecordedSeed (request : ImageRequest) (rand : Int) (data : List Json) :
    Int :=
  parseSeedFromResponse (hfModelId request) data (hfSeed request rand)

/-- True when the provider payload reports no seed of its own, so
`parseSeedFromResponse` is forced to its fallback: `result[1]` is not a
number, and the qwen-image-fast regex arm does not produce a match. -/
def seedNotReported (modelId : String) (result : List Json) : Bool :=
  match jsIndex result 1 with
  | .num _ => false
  | .str s => !(modelId = "qwen-image-fast" && (findSeedInText s).isSome)
  | _ => true

-- ---------------------------------------------------------------------------
-- src/unnamed/part_001: a4fImage.generate
-- ---------------------------------------------------------------------------

/-- One entry of the `data` array of an A4F image response. -/
structure A4FItem where
  url : Option String
  b64_json : Option String
deriving DecidableEq, Repr

/-- The `error` object of an A4F image response (only `message` is read). -/
structure A4FErr where
  message : Option String
deriving DecidableEq, Repr

/-- `A4FImageResponse` from src/unnamed/part_001. -/
structure A4FImageResponse where
  data : Option (List A4FItem)
  error : Option A4FErr
deriving DecidableEq, Repr

/-- `parseA4FError` from src/unnamed/part_001. -/
def parseA4FError (status : Nat) (data : A4FImageResponse) : ApiError :=
  let message :=
    jsOrStr (data.error.bind (·.message)) ("HTTP " ++ toString status)
  if status = 401 ∨ status = 403 then Errors.authInvalid "A4F" message
  else if status = 429 then Errors.rateLimited "A4F"
  else if status = 402 then Errors.quotaExceeded "A4F"
  else if jsIncludes (jsToLower message) "quota" ||
      jsIncludes (jsToLower message) "insufficient" then
    Errors.quotaExceeded "A4F"
  else Errors.providerError "A4F" message

/-- `data.data?.[0]?.url` followed by the `if (!url)` falsy check. -/
def a4fFirstUrl (resp : A4FImageResponse) : Option String :=
  match resp.data with
  | some (item :: _) =>
    match item.url with
    | some u => if u = "" then none else some u
    | none => none
  | _ => none

/-- `a4fImage.generate` from src/unnamed/part_001, with the transport
abstracted as the observed response (`status`, parsed body `resp`); the
JS falsy check on the token (`if (!token) throw authRequired`) treats
both a missing and an empty token as absent.  `'gpt-image-1'` is
`a4fConfig.imageModels[0].id` (channels/a4f/config.ts). -/
def a4fGenerate (request : ImageRequest) (token : Option String)
    (status : Nat) (resp : A4FImageResponse) : Except ApiError ImageResult :=
  match token with
  | none => .error (Errors.authRequired "A4F")
  | some t =>
    if t = "" then .error (Errors.authRequired "A4F")
    else
      match jsOrOptStr request.model (some "gpt-image-1") with
      | none => .error (Errors.invalidParams "model" "model is required")
      | some model =>
        if !(200 ≤ status ∧ status ≤ 299) then .error (parseA4FError status resp)
        else
          match a4fFirstUrl resp with
          | none => .error (Errors.generationFailed "A4F" "No image returned")
          | some url => .ok ⟨url, request.seed.getD 0, model⟩

-- ---------------------------------------------------------------------------
-- Helper lemmas
-- ---------------------------------------------------------------------------

/-- `p ++ r` starts with `p` (character-list form used by jsStartsWith). -/
lemma isPrefixOf_append (p r : List Char) : List.isPrefixOf p (p ++ r) = true := by
  simp [List.isPrefixOf_iff_prefix, List.prefix_append]

/-- jsStartsWith holds on any extension of the prefix. -/
lemma jsStartsWith_append (p r : String) : jsStartsWith (p ++ r) p = true := by
  have h := isPrefixOf_append p.data r.data
  simpa [jsStartsWith, String.data_append] using h

/-- Dropping the prefix length of an appended string yields the tail. -/
lemma jsDrop_append (p r : String) : jsDrop (p ++ r) p.length = r := by
  show (⟨(p.data ++ r.data).drop p.data.length⟩ : String) = r
  rw [List.drop_left]

-- ---------------------------------------------------------------------------
-- C6: resolveModel example mappings
-- ---------------------------------------------------------------------------

/-- C6 counterexample: `resolveModel` has no `custom/` arm, so
"custom/myhost/some-model" matches no known prefix, is not a known
HuggingFace model, and resolves to the fixed default
(huggingface, z-image-turbo), not to (myhost, some-model) as claimed. -/
theorem C6_custom_not_split_by_resolveModel :
    resolveModel (some "custom/myhost/some-model") =
      ⟨"huggingface", "z-image-turbo"⟩ ∧
    (⟨"huggingface", "z-image-turbo"⟩ : ResolvedModel) ≠
      ⟨"myhost", "some-model"⟩ := by
  exact ⟨by decide, by decide⟩

/-- C6 (amended): `resolveModel` maps "gitee/qwen-image" to
(gitee, Qwen-Image), "ms/flux-2" to (modelscope,
black-forest-labs/FLUX.2-dev), and the empty (or absent) model string to
the fixed default (huggingface, z-image-turbo); the `custom/<id>/<rest>`
splitting (first slash after the prefix) is performed not by
`resolveModel` but by `resolveChatModel` in chat.ts, which maps
"custom/myhost/some-model" to channel "myhost" with model "some-model". -/
theorem C6_resolveModel_examples :
    resolveModel (some "gitee/qwen-image") = ⟨"gitee", "Qwen-Image"⟩ ∧
    resolveModel (some "ms/flux-2") =
      ⟨"modelscope", "black-forest-labs/FLUX.2-dev"⟩ ∧
    resolveModel (some "") = ⟨"huggingface", "z-image-turbo"⟩ ∧
    resolveModel none = ⟨"huggingface", "z-image-turbo"⟩ ∧
    resolveChatModel "custom/myhost/some-model" =
      ⟨"myhost", "some-model", false⟩ := by
  refine ⟨by decide, by decide, by decide, by decide, by decide⟩

-- ---------------------------------------------------------------------------
-- C7: fall-through and unknown-alias pass-through
-- ---------------------------------------------------------------------------

/-- C7 counterexample: the unprefixed string "foo" does not pass through
unchanged as the default channel's model id; `resolveModel` replaces every
unprefixed string outside the known HuggingFace model set by the fixed
default model "z-image-turbo". -/
theorem C7_unprefixed_not_passed_through :
    resolveModel (some "foo") = ⟨"huggingface", "z-image-turbo"⟩ ∧
    "z-image-turbo" ≠ "foo" := by
  exact ⟨by decide, by decide⟩

/-- C7 (amended): on a trimmed model string with no known provider prefix,
`resolveModel` falls through to the huggingface channel keeping the string
as the model id only when it is in the known HuggingFace model set, and
otherwise substitutes the fixed default model "z-image-turbo"; a prefixed
model string whose remainder is missing from the provider alias table
passes through unchanged as the provider model id (gitee/, ms/, and the
alias-free a4f/ arm). -/
theorem C7_fallthrough_and_alias_passthrough :
    (∀ s : String, jsStartsWith s "gitee/" = false →
      jsStartsWith s "ms/" = false → jsStartsWith s "a4f/" = false →
      HF_MODELS.contains s = true →
      resolveModelTrimmed s = ⟨"huggingface", s⟩) ∧
    (∀ s : String, jsStartsWith s "gitee/" = false →
      jsStartsWith s "ms/" = false → jsStartsWith s "a4f/" = false →
      HF_MODELS.contains s = false →
      resolveModelTrimmed s = ⟨"huggingface", "z-image-turbo"⟩) ∧
    (∀ raw : String, GITEE_MODEL_ALIASES raw = none →
      resolveModelTrimmed ("gitee/" ++ raw) = ⟨"gitee", raw⟩) ∧
    (∀ raw : String, MODELSCOPE_MODEL_ALIASES raw = none →
      jsStartsWith ("ms/" ++ raw) "gitee/" = false →
      resolveModelTrimmed ("ms/" ++ raw) = ⟨"modelscope", raw⟩) ∧
    (∀ raw : String, resolveModelTrimmed ("a4f/" ++ raw) = ⟨"a4f", raw⟩) := by
  refine ⟨?_, ?_, ?_, ?_, ?_⟩
  · intro s h1 h2 h3 h4
    have hmem : s ∈ HF_MODELS := by simpa using h4
    simp [resolveModelTrimmed, h1, h2, h3, hmem]
  · intro s h1 h2 h3 h4
    have hmem : s ∉ HF_MODELS := by simpa using h4
    simp [resolveModelTrimmed, h1, h2, h3, hmem, DEFAULT_HF_MODEL]
  · intro raw h
    have hs : jsStartsWith ("gitee/" ++ raw) "gitee/" = true :=
      jsStartsWith_append "gitee/" raw
    have hd : jsDrop ("gitee/" ++ raw) 6 = raw := jsDrop_append "gitee/" raw
    simp [resolveModelTrimmed, hs, hd, h]
  · intro raw h hng
    have hs : jsStartsWith ("ms/" ++ raw) "ms/" = true :=
      jsStartsWith_append "ms/" raw
    have hd : jsDrop ("ms/" ++ raw) 3 = raw := jsDrop_append "ms/" raw
    simp [resolveModelTrimmed, hng, hs, hd, h]
  · intro raw
    have hs : jsStartsWith ("a4f/" ++ raw) "a4f/" = true :=
      jsStartsWith_append "a4f/" raw
    have hd : jsDrop ("a4f/" ++ raw) 4 = raw := jsDrop_append "a4f/" raw
    have hng : jsStartsWith ("a4f/" ++ raw) "gitee/" = false := by
      show List.isPrefixOf "gitee/".data ("a4f/" ++ raw).data = false
      rw [String.data_append]
      rfl
    have hnm : jsStartsWith ("a4f/" ++ raw) "ms/" = false := by
      show List.isPrefixOf "ms/".data ("a4f/" ++ raw).data = false
      rw [String.data_append]
      rfl
    simp [resolveModelTrimmed, hng, hnm, hs, hd]

/-- C7 witness: the amended theorem applied at concrete inputs. -/
theorem C7_fallthrough_witness :
    resolveModelTrimmed "qwen-image-fast" = ⟨"huggingface", "qwen-image-fast"⟩ ∧
    resolveModelTrimmed "foo" = ⟨"huggingface", "z-image-turbo"⟩ ∧
    resolveModelTrimmed ("gitee/" ++ "mystery-model") = ⟨"gitee", "mystery-model"⟩ ∧
    resolveModelTrimmed ("ms/" ++ "mystery-model") = ⟨"modelscope", "mystery-model"⟩ ∧
    resolveModelTrimmed ("a4f/" ++ "mystery-model") = ⟨"a4f", "mystery-model"⟩ := by
  refine ⟨?_, ?_, ?_, ?_, ?_⟩
  · exact C7_fallthrough_and_alias_passthrough.1 "qwen-image-fast"
      (by decide) (by decide) (by decide) (by decide)
  · exact C7_fallthrough_and_alias_passthrough.2.1 "foo"
      (by decide) (by decide) (by decide) (by decide)
  · exact C7_fallthrough_and_alias_passthrough.2.2.1 "mystery-model" (by decide)
  · exact C7_fallthrough_and_alias_passthrough.2.2.2.1 "mystery-model"
      (by decide) (by decide)
  · exact C7_fallthrough_and_alias_passthrough.2.2.2.2 "mystery-model"

-- ---------------------------------------------------------------------------
-- C8: complete-payload normalization
-- ---------------------------------------------------------------------------

/-- C8: the complete-payload normalization of `callGradioApi` yields the
same plain array for a bare array payload and for an object payload with a
`data` array (shown for [7,8]); every payload that is neither an array nor
an object whose `data` field is an array is rejected with PROVIDER_ERROR
(carrying the stringified payload truncated to 200 characters). -/
theorem C8_normalize_complete_payload :
    (∀ js : Json → String,
      normalizeComplete js (.arr [.num 7, .num 8]) = .ok [.num 7, .num 8]) ∧
    (∀ js : Json → String,
      normalizeComplete js (.obj [("data", .arr [.num 7, .num 8])]) =
        .ok [.num 7, .num 8]) ∧
    (∀ (js : Json → String) (j : Json),
      (∀ xs, j ≠ .arr xs) →
      (∀ fields, j = .obj fields → ∀ xs, fields.lookup "data" ≠ some (.arr xs)) →
      normalizeComplete js j = .error (Errors.providerError PROVIDER_NAME
        ("Unexpected complete payload: " ++ jsTake (js j) 200))) := by
  refine ⟨fun js => rfl, fun js => rfl, ?_⟩
  intro js j harr hobj
  cases j with
  | arr xs => exact absurd rfl (harr xs)
  | obj fields =>
    have h := hobj fields rfl
    cases hl : fields.lookup "data" with
    | none => simp [normalizeComplete, hl]
    | some v =>
      cases v with
      | arr xs => exact absurd hl (h xs)
      | null => simp [normalizeComplete, hl]
      | bool b => simp [normalizeComplete, hl]
      | num n => simp [normalizeComplete, hl]
      | str s => simp [normalizeComplete, hl]
      | obj f2 => simp [normalizeComplete, hl]
  | null => rfl
  | bool b => rfl
  | num n => rfl
  | str s => rfl

/-- C8 witness: the rejection arm applied at the concrete payload
`"nope"` (a bare string), with a concrete stringifier. -/
theorem C8_normalize_witness :
    normalizeComplete (fun _ => "nope-stringified") (.str "nope") =
      .error (Errors.providerError PROVIDER_NAME
        ("Unexpected complete payload: " ++
          jsTake "nope-stringified" 200)) := by
  exact C8_normalize_complete_payload.2.2 (fun _ => "nope-stringified")
    (.str "nope") (fun xs h => by cases h) (fun fields h => by cases h)

-- ---------------------------------------------------------------------------
-- Rotation-engine lemmas
-- ---------------------------------------------------------------------------

/-- Head-form of the rotation iteration over a (nonempty) list. -/
def rotateHead {α : Type} (op : String → Except ApiError α) :
    List String → Except ApiError α × List String
  | [] => (.error (Errors.providerError "" "empty pool"), [])
  | c :: rest => rotateGo op c rest

lemma rotateGo_ok {α : Type} (op : String → Except ApiError α) (c : String)
    (rest : List String) (v : α) (h : op c = .ok v) :
    rotateGo op c rest = (.ok v, [c]) := by
  conv_lhs => unfold rotateGo
  rw [h]

lemma rotateGo_fatal {α : Type} (op : String → Except ApiError α) (c : String)
    (rest : List String) (e : ApiError) (h : op c = .error e)
    (hs : credentialScoped e.code = false) :
    rotateGo op c rest = (.error e, [c]) := by
  conv_lhs => unfold rotateGo
  rw [h]
  simp [hs]

lemma rotateGo_scoped_last {α : Type} (op : String → Except ApiError α)
    (c : String) (e : ApiError) (h : op c = .error e)
    (hs : credentialScoped e.code = true) :
    rotateGo op c [] = (.error e, [c]) := by
  conv_lhs => unfold rotateGo
  rw [h]
  simp [hs]

lemma rotateGo_scoped_cons {α : Type} (op : String → Except ApiError α)
    (c c2 : String) (rs : List String) (e : ApiError) (h : op c = .error e)
    (hs : credentialScoped e.code = true) :
    rotateGo op c (c2 :: rs) =
      ((rotateGo op c2 rs).1, c :: (rotateGo op c2 rs).2) := by
  conv_lhs => unfold rotateGo
  rw [h]
  simp [hs]

/-- Credentials that fail with a credential-scoped error are consumed one by
one, each invoked exactly once, before the rest of the pool is processed. -/
lemma rotateHead_through_scoped {α : Type} (op : String → Except ApiError α) :
    ∀ (pre : List String) (c : String) (post : List String),
      (∀ x ∈ pre, ∃ e, op x = .error e ∧ credentialScoped e.code = true) →
      rotateHead op (pre ++ c :: post) =
        ((rotateGo op c post).1, pre ++ (rotateGo op c post).2) := by
  intro pre
  induction pre with
  | nil => intro c post _; simp [rotateHead]
  | cons p ps ih =>
    intro c post hpre
    obtain ⟨e, herr, hsc⟩ := hpre p (List.mem_cons_self p ps)
    have hne : ∃ c2 rs, ps ++ c :: post = c2 :: rs := by
      cases ps with
      | nil => exact ⟨c, post, rfl⟩
      | cons q qs => exact ⟨q, qs ++ c :: post, rfl⟩
    obtain ⟨c2, rs, hsplit⟩ := hne
    have hrest : rotateHead op (ps ++ c :: post) = rotateGo op c2 rs := by
      rw [hsplit]; rfl
    have ihr := ih c post (fun x hx => hpre x (List.mem_cons_of_mem p hx))
    have key : rotateGo op c2 rs =
        ((rotateGo op c post).1, ps ++ (rotateGo op c post).2) :=
      hrest.symm.trans ihr
    calc rotateHead op (p :: ps ++ c :: post)
        = rotateGo op p (ps ++ c :: post) := rfl
      _ = ((rotateGo op c post).1, p :: ps ++ (rotateGo op c post).2) := by
          rw [hsplit, rotateGo_scoped_cons op p c2 rs e herr hsc, key]
          simp

/-- The nonempty-pool branch of runWithTokenRotation is rotateHead. -/
lemma runWithTokenRotation_nonempty {α : Type} (channelId : String)
    (c : String) (rest : List String) (op : Option String → Except ApiError α)
    (allowAnonymous : Bool) :
    runWithTokenRotation channelId (c :: rest) op allowAnonymous =
      ((rotateHead (fun t => op (some t)) (c :: rest)).1,
        (rotateHead (fun t => op (some t)) (c :: rest)).2.map some) := by
  rfl

-- ---------------------------------------------------------------------------
-- C1: credential rotation semantics
-- ---------------------------------------------------------------------------

/-- C1 (spec-modelled: core/token-manager.ts is not under src): against a
non-empty pool the rotation engine invokes the operation on credentials in
pool order; it returns the first successful result having invoked the
operation exactly once per credential up to and including the successful
one; when every credential fails with a credential-scoped error
(AUTH_INVALID, RATE_LIMITED, QUOTA_EXCEEDED) it invokes each exactly once,
in order, and surfaces the last such error; a failure of any other kind
aborts immediately, the remaining credentials never being tried. -/
theorem C1_rotation_semantics :
    (∀ (α : Type) (channelId : String) (op : Option String → Except ApiError α)
      (pre : List String) (c : String) (post : List String) (v : α)
      (anon : Bool),
      (∀ x ∈ pre, ∃ e, op (some x) = .error e ∧ credentialScoped e.code = true) →
      op (some c) = .ok v →
      runWithTokenRotation channelId (pre ++ c :: post) op anon =
        (.ok v, (pre ++ [c]).map some)) ∧
    (∀ (α : Type) (channelId : String) (op : Option String → Except ApiError α)
      (init : List String) (last : String) (e : ApiError) (anon : Bool),
      (∀ x ∈ init, ∃ e', op (some x) = .error e' ∧ credentialScoped e'.code = true) →
      op (some last) = .error e → credentialScoped e.code = true →
      runWithTokenRotation channelId (init ++ [last]) op anon =
        (.error e, (init ++ [last]).map some)) ∧
    (∀ (α : Type) (channelId : String) (op : Option String → Except ApiError α)
      (pre : List String) (c : String) (post : List String) (e : ApiError)
      (anon : Bool),
      (∀ x ∈ pre, ∃ e', op (some x) = .error e' ∧ credentialScoped e'.code = true) →
      op (some c) = .error e → credentialScoped e.code = false →
      runWithTokenRotation channelId (pre ++ c :: post) op anon =
        (.error e, (pre ++ [c]).map some)) := by
  refine ⟨?_, ?_, ?_⟩
  · intro α channelId op pre c post v anon hpre hok
    have hsplit : ∃ h t, pre ++ c :: post = h :: t := by
      cases pre with
      | nil => exact ⟨c, post, rfl⟩
      | cons q qs => exact ⟨q, qs ++ c :: post, rfl⟩
    obtain ⟨h, t, hht⟩ := hsplit
    rw [hht, runWithTokenRotation_nonempty, ← hht,
      rotateHead_through_scoped _ pre c post hpre,
      rotateGo_ok _ c post v hok]
  · intro α channelId op init last e anon hinit herr hsc
    have hsplit : ∃ h t, init ++ [last] = h :: t := by
      cases init with
      | nil => exact ⟨last, [], rfl⟩
      | cons q qs => exact ⟨q, qs ++ [last], rfl⟩
    obtain ⟨h, t, hht⟩ := hsplit
    rw [hht, runWithTokenRotation_nonempty, ← hht,
      rotateHead_through_scoped _ init last [] hinit,
      rotateGo_scoped_last _ last e herr hsc]
  · intro α channelId op pre c post e anon hpre herr hsc
    have hsplit : ∃ h t, pre ++ c :: post = h :: t := by
      cases pre with
      | nil => exact ⟨c, post, rfl⟩
      | cons q qs => exact ⟨q, qs ++ c :: post, rfl⟩
    obtain ⟨h, t, hht⟩ := hsplit
    rw [hht, runWithTokenRotation_nonempty, ← hht,
      rotateHead_through_scoped _ pre c post hpre,
      rotateGo_fatal _ c post e herr hsc]

/-- A concrete operation for exercising the rotation engine: "good"
succeeds, "fatal" fails with a non-credential-scoped error, anything else
fails with a credential-scoped AUTH_INVALID. -/
def opRotW : Option String → Except ApiError Nat := fun t =>
  if t = some "good" then .ok 7
  else if t = some "fatal" then .error (Errors.invalidPrompt "bad prompt")
  else .error (Errors.authInvalid "P" "denied")

/-- C1 witness: the three rotation behaviours at concrete pools. -/
theorem C1_rotation_witness :
    runWithTokenRotation "ch" ["bad", "good", "spare"] opRotW false =
      (.ok 7, [some "bad", some "good"]) ∧
    runWithTokenRotation "ch" ["bad", "bad2"] opRotW false =
      (.error (Errors.authInvalid "P" "denied"), [some "bad", some "bad2"]) ∧
    runWithTokenRotation "ch" ["bad", "fatal", "spare"] opRotW false =
      (.error (Errors.invalidPrompt "bad prompt"),
        [some "bad", some "fatal"]) := by
  refine ⟨?_, ?_, ?_⟩
  · exact C1_rotation_semantics.1 Nat "ch" opRotW ["bad"] "good" ["spare"] 7 false
      (fun x hx => by
        rw [List.mem_singleton] at hx
        subst hx
        exact ⟨Errors.authInvalid "P" "denied", rfl, rfl⟩)
      rfl
  · exact C1_rotation_semantics.2.1 Nat "ch" opRotW ["bad"] "bad2"
      (Errors.authInvalid "P" "denied") false
      (fun x hx => by
        rw [List.mem_singleton] at hx
        subst hx
        exact ⟨Errors.authInvalid "P" "denied", rfl, rfl⟩)
      rfl rfl
  · exact C1_rotation_semantics.2.2 Nat "ch" opRotW ["bad"] "fatal" ["spare"]
      (Errors.invalidPrompt "bad prompt") false
      (fun x hx => by
        rw [List.mem_singleton] at hx
        subst hx
        exact ⟨Errors.authInvalid "P" "denied", rfl, rfl⟩)
      rfl rfl

-- ---------------------------------------------------------------------------
-- C2: empty pool + no anonymous access fails before any call
-- ---------------------------------------------------------------------------

/-- C2: when the effective credential pool is empty (no caller tokens, no
configured channel tokens) and the channel does not allow anonymous access
(bearer auth, not optional, no forced-anonymous resolution), the handler
fails with AUTH_REQUIRED and the operation is never invoked (empty
invocation trace, hence zero network calls). -/
theorem C2_empty_pool_auth_required :
    ∀ (α : Type) (parseTokens : Option String → List String)
      (channel : ChannelSlice) (resolved : ResolvedChat) (auth : ParsedAuth)
      (op : Option String → Except ApiError α),
      (match auth.providerHint with
        | some h => h = resolved.channelId
        | none => True) →
      resolved.forceAnonymous = false →
      channel.authMode = .bearer →
      channel.authOptional = false →
      parseTokens auth.token = [] →
      channel.tokens = [] →
      chatCompletionAuthRun parseTokens channel resolved auth op =
        (.error (Errors.authRequired channel.name), []) := by
  intro α parseTokens channel resolved auth op hhint hforce hmode hopt hp hch
  have e1 : (match auth.providerHint with
      | some h => (h != resolved.channelId)
      | none => false) = false := by
    cases ha : auth.providerHint with
    | none => rfl
    | some h =>
      rw [ha] at hhint
      simp at hhint
      simp [hhint]
  unfold chatCompletionAuthRun
  rw [e1]
  simp [hforce, hmode, hopt, hp, hch]

/-- C2 witness: the theorem at a concrete bearer-auth channel with an empty
pool and no caller credentials. -/
theorem C2_empty_pool_witness :
    chatCompletionAuthRun (fun _ => [])
      ⟨"gitee", "Gitee AI", .bearer, false, []⟩
      ⟨"gitee", "Qwen-Image", false⟩ ⟨none, none⟩
      (fun _ => (.ok 0 : Except ApiError Nat)) =
      (.error (Errors.authRequired "Gitee AI"), []) := by
  exact C2_empty_pool_auth_required Nat (fun _ => [])
    ⟨"gitee", "Gitee AI", .bearer, false, []⟩
    ⟨"gitee", "Qwen-Image", false⟩ ⟨none, none⟩
    (fun _ => .ok 0) trivial rfl rfl rfl rfl rfl

-- ---------------------------------------------------------------------------
-- C10: forced-anonymous requests and the caller's bearer token
-- ---------------------------------------------------------------------------

/-- C10 counterexample: with the forced-anonymous model
"pollinations/openai-fast", two requests identical except for the caller's
bearer token do not invoke the upstream operation identically: a plain
bearer token is discarded and the channel pool is used (one invocation),
but a bearer token carrying a conflicting provider-hint prefix
("gitee:...") is rejected by the provider-hint check before any
invocation. -/
theorem C10_bearer_hint_still_observable :
    (chatCompletionAuthRun (fun _ => [])
      ⟨"huggingface", "HuggingFace", .bearer, false, ["pool-token"]⟩
      (resolveChatModel "pollinations/openai-fast")
      (parseChatBearerToken (some "Bearer caller-token"))
      (fun _ => (.ok 0 : Except ApiError Nat))).2 = [some "pool-token"] ∧
    (chatCompletionAuthRun (fun _ => [])
      ⟨"huggingface", "HuggingFace", .bearer, false, ["pool-token"]⟩
      (resolveChatModel "pollinations/openai-fast")
      (parseChatBearerToken (some "Bearer gitee:caller-token"))
      (fun _ => (.ok 0 : Except ApiError Nat))).2 = [] ∧
    ([some "pool-token"] : List (Option String)) ≠ [] := by
  refine ⟨by decide, by decide, by decide⟩

/-- C10 (amended): in forced-anonymous mode the caller's bearer token VALUE
is discarded — the operation receives credentials only from the channel's
configured pool — provided the bearer carries no provider-hint prefix that
conflicts with the resolved channel: any two requests identical except for
such bearer tokens (and even except for the header-token parser) produce
identical outcomes and identical operation-invocation traces. -/
theorem C10_forced_anonymous_ignores_bearer :
    ∀ (α : Type) (p1 p2 : Option String → List String)
      (channel : ChannelSlice) (model : String)
      (op : Option String → Except ApiError α) (a1 a2 : ParsedAuth),
      (resolveChatModel model).forceAnonymous = true →
      (match a1.providerHint with
        | some h => h = (resolveChatModel model).channelId
        | none => True) →
      (match a2.providerHint with
        | some h => h = (resolveChatModel model).channelId
        | none => True) →
      chatCompletionAuthRun p1 channel (resolveChatModel model) a1 op =
        chatCompletionAuthRun p2 channel (resolveChatModel model) a2 op := by
  intro α p1 p2 channel model op a1 a2 hf h1 h2
  have e1 : (match a1.providerHint with
      | some h => (h != (resolveChatModel model).channelId)
      | none => false) = false := by
    cases ha : a1.providerHint with
    | none => rfl
    | some h =>
      rw [ha] at h1
      simp at h1
      simp [h1]
  have e2 : (match a2.providerHint with
      | some h => (h != (resolveChatModel model).channelId)
      | none => false) = false := by
    cases ha : a2.providerHint with
    | none => rfl
    | some h =>
      rw [ha] at h2
      simp at h2
      simp [h2]
  unfold chatCompletionAuthRun
  rw [e1, e2]
  simp [hf]

/-- C10 witness: the amended theorem at two concrete bearer headers (a plain
token and a matching-hint token) for a forced-anonymous model. -/
theorem C10_forced_anonymous_witness :
    chatCompletionAuthRun (fun _ => [])
      ⟨"huggingface", "HuggingFace", .bearer, false, ["pool-token"]⟩
      (resolveChatModel "pollinations/openai-fast")
      (parseChatBearerToken (some "Bearer t1"))
      (fun _ => (.ok 0 : Except ApiError Nat)) =
    chatCompletionAuthRun (fun _ => ["t2"])
      ⟨"huggingface", "HuggingFace", .bearer, false, ["pool-token"]⟩
      (resolveChatModel "pollinations/openai-fast")
      (parseChatBearerToken (some "Bearer hf:t2"))
      (fun _ => (.ok 0 : Except ApiError Nat)) := by
  exact C10_forced_anonymous_ignores_bearer Nat (fun _ => []) (fun _ => ["t2"])
    ⟨"huggingface", "HuggingFace", .bearer, false, ["pool-token"]⟩
    "pollinations/openai-fast" (fun _ => .ok 0)
    (parseChatBearerToken (some "Bearer t1"))
    (parseChatBearerToken (some "Bearer hf:t2"))
    rfl trivial rfl

-- ---------------------------------------------------------------------------
-- C5: candidate-base-URL failover
-- ---------------------------------------------------------------------------

/-- C5 counterexample: when every candidate fails with a 404-flavored
PROVIDER_ERROR, exhausting the candidates surfaces that last not-found
error (the loop re-throws `lastErr`), not GENERATION_FAILED as claimed. -/
theorem C5_exhaustion_surfaces_last_404 :
    hfFailover
      (fun _ => .error ⟨.PROVIDER_ERROR, "HuggingFace",
        "404 https://x.hf.space", some "404 https://x.hf.space"⟩)
      ["https://a.hf.space", "https://b.hf.space"] none =
      .error ⟨.PROVIDER_ERROR, "HuggingFace",
        "404 https://x.hf.space", some "404 https://x.hf.space"⟩ ∧
    ApiErrorCode.PROVIDER_ERROR ≠ ApiErrorCode.GENERATION_FAILED := by
  exact ⟨rfl, by decide⟩

/-- C5 (amended): in the candidate-base-URL loop of
`huggingfaceImage.generate`, an attempt failing with a not-found-shaped
provider error advances to the next candidate (and the first success after
such failures is returned); an attempt failing with any other error aborts
the whole call immediately, the remaining candidates never tried;
exhausting all candidates (every attempt failing not-found-shaped)
surfaces the LAST such error, GENERATION_FAILED arising only for an empty
candidate list with no recorded error. -/
theorem C5_failover_semantics :
    (∀ (attempt : String → Except ApiError String) (b : String)
      (rest : List String) (le : Option ApiError) (e : ApiError),
      attempt b = .error e → isNotFoundProviderError e = true →
      hfFailover attempt (b :: rest) le = hfFailover attempt rest (some e)) ∧
    (∀ (attempt : String → Except ApiError String) (pre : List String)
      (c : String) (post : List String) (le : Option ApiError) (v : String),
      (∀ x ∈ pre, ∃ e, attempt x = .error e ∧ isNotFoundProviderError e = true) →
      attempt c = .ok v →
      hfFailover attempt (pre ++ c :: post) le = .ok v) ∧
    (∀ (attempt : String → Except ApiError String) (b : String)
      (rest : List String) (le : Option ApiError) (e : ApiError),
      attempt b = .error e → isNotFoundProviderError e = false →
      hfFailover attempt (b :: rest) le = .error e) ∧
    (∀ (attempt : String → Except ApiError String) (init : List String)
      (b : String) (le : Option ApiError) (e : ApiError),
      (∀ x ∈ init, ∃ e', attempt x = .error e' ∧ isNotFoundProviderError e' = true) →
      attempt b = .error e → isNotFoundProviderError e = true →
      hfFailover attempt (init ++ [b]) le = .error e) ∧
    (∀ attempt : String → Except ApiError String,
      hfFailover attempt [] none =
        .error (Errors.generationFailed "HuggingFace" "No image returned")) := by
  refine ⟨?_, ?_, ?_, ?_, fun attempt => rfl⟩
  · intro attempt b rest le e herr hnf
    simp [hfFailover, herr, hnf]
  · intro attempt pre
    induction pre with
    | nil =>
      intro c post le v _ hok
      simp [hfFailover, hok]
    | cons p ps ih =>
      intro c post le v hpre hok
      obtain ⟨e, herr, hnf⟩ := hpre p (List.mem_cons_self p ps)
      have step : hfFailover attempt ((p :: ps) ++ c :: post) le =
          hfFailover attempt (ps ++ c :: post) (some e) := by
        simp [hfFailover, herr, hnf]
      rw [step]
      exact ih c post (some e) v
        (fun x hx => hpre x (List.mem_cons_of_mem p hx)) hok
  · intro attempt b rest le e herr hnf
    simp [hfFailover, herr, hnf]
  · intro attempt init
    induction init with
    | nil =>
      intro b le e _ herr hnf
      simp [hfFailover, herr, hnf]
    | cons p ps ih =>
      intro b le e hpre herr hnf
      obtain ⟨e', herr', hnf'⟩ := hpre p (List.mem_cons_self p ps)
      have step : hfFailover attempt ((p :: ps) ++ [b]) le =
          hfFailover attempt (ps ++ [b]) (some e') := by
        simp [hfFailover, herr', hnf']
      rw [step]
      exact ih b (some e') e
        (fun x hx => hpre x (List.mem_cons_of_mem p hx)) herr hnf

/-- C5 witness: the failover behaviours at a concrete attempt function
(candidate "a" not-found, candidate "b" succeeds; candidate "f" fails
fatally with a 500-classified provider error). -/
theorem C5_failover_witness :
    hfFailover
      (fun u => if u = "a"
        then .error ⟨.PROVIDER_ERROR, "HuggingFace", "404 a", some "404 a"⟩
        else if u = "f"
        then .error ⟨.PROVIDER_ERROR, "HuggingFace", "500 f", some "500 f"⟩
        else .ok "https://img")
      ["a", "b"] none = .ok "https://img" ∧
    hfFailover
      (fun u => if u = "a"
        then .error ⟨.PROVIDER_ERROR, "HuggingFace", "404 a", some "404 a"⟩
        else if u = "f"
        then .error ⟨.PROVIDER_ERROR, "HuggingFace", "500 f", some "500 f"⟩
        else .ok "https://img")
      ["f", "b"] none =
      .error ⟨.PROVIDER_ERROR, "HuggingFace", "500 f", some "500 f"⟩ ∧
    hfFailover
      (fun u => if u = "a"
        then .error ⟨.PROVIDER_ERROR, "HuggingFace", "404 a", some "404 a"⟩
        else if u = "f"
        then .error ⟨.PROVIDER_ERROR, "HuggingFace", "500 f", some "500 f"⟩
        else .ok "https://img")
      ["a"] none =
      .error ⟨.PROVIDER_ERROR, "HuggingFace", "404 a", some "404 a"⟩ := by
  refine ⟨?_, ?_, ?_⟩
  · exact C5_failover_semantics.2.1 _ ["a"] "b" [] none "https://img"
      (fun x hx => by
        rw [List.mem_singleton] at hx
        subst hx
        exact ⟨⟨.PROVIDER_ERROR, "HuggingFace", "404 a", some "404 a"⟩,
          rfl, by decide⟩)
      rfl
  · exact C5_failover_semantics.2.2.1 _ "f" ["b"] none
      ⟨.PROVIDER_ERROR, "HuggingFace", "500 f", some "500 f"⟩ rfl (by decide)
  · exact C5_failover_semantics.2.2.2.1 _ [] "a" none
      ⟨.PROVIDER_ERROR, "HuggingFace", "404 a", some "404 a"⟩
      (fun x hx => absurd hx (List.not_mem_nil x)) rfl (by decide)

-- ---------------------------------------------------------------------------
-- C9: default seeds and seed recording
-- ---------------------------------------------------------------------------

/-- C9 counterexample: the a4f image capability does not default the seed
to a random draw; for a request with no seed it records the constant 0
(the code computes `request.seed ?? 0` and never consults any entropy
source), so not every image capability defaults the seed to a uniformly
random 32-bit integer. -/
theorem C9_a4f_seed_is_constant_zero :
    a4fGenerate ⟨"a cat", 512, 512, some "dall-e-3", none, none⟩
      (some "tok") 200 ⟨some [⟨some "https://img.png", none⟩], none⟩ =
      .ok ⟨"https://img.png", 0, "dall-e-3"⟩ := by
  rfl

/-- C9 (amended): the huggingface image capability defaults the seed to the
value drawn from the entropy source (`Math.floor(Math.random() *
MAX_INT32)`, a uniformly random non-negative integer below 2^31 - 1) when
the request carries no seed, and records that seed in the result whenever
the provider payload does not itself report one; a caller-specified seed
is used and recorded the same way (the provider-reported value, when
present, takes precedence via parseSeedFromResponse).  The a4f capability
instead records `request.seed ?? 0`: the caller's seed is echoed, but an
absent seed is recorded as the constant 0, no entropy being drawn. -/
theorem C9_seed_defaulting :
    (∀ (request : ImageRequest) (rand : Int) (data : List Json),
      request.seed = none →
      seedNotReported (hfModelId request) data = true →
      hfSeed request rand = rand ∧ hfRecordedSeed request rand data = rand) ∧
    (∀ (request : ImageRequest) (rand s : Int) (data : List Json),
      request.seed = some s →
      seedNotReported (hfModelId request) data = true →
      hfSeed request rand = s ∧ hfRecordedSeed request rand data = s) ∧
    (∀ (modelId : String) (data : List Json) (fallbackSeed : Int),
      seedNotReported modelId data = true →
      parseSeedFromResponse modelId data fallbackSeed = fallbackSeed) ∧
    (∀ (request : ImageRequest) (token : Option String) (status : Nat)
      (resp : A4FImageResponse) (res : ImageResult),
      a4fGenerate request token status resp = .ok res →
      res.seed = request.seed.getD 0) := by
  have hB : ∀ (modelId : String) (data : List Json) (fallbackSeed : Int),
      seedNotReported modelId data = true →
      parseSeedFromResponse modelId data fallbackSeed = fallbackSeed := by
    intro m data f h
    unfold seedNotReported at h
    unfold parseSeedFromResponse
    cases h1 : jsIndex data 1 with
    | num n => rw [h1] at h; cases h
    | str s =>
      rw [h1] at h
      simp at h
      by_cases hm : m = "qwen-image-fast"
      · have hnone : findSeedInText s = none := by
          rcases h with hne | hnone
          · exact absurd hm hne
          · exact hnone
        simp [hm, h1, hnone]
      · simp [hm, h1]
    | null => simp [h1]
    | bool b => simp [h1]
    | arr xs => simp [h1]
    | obj fields => simp [h1]
  refine ⟨?_, ?_, hB, ?_⟩
  · intro request rand data hseed hnr
    have h1 : hfSeed request rand = rand := by simp [hfSeed, hseed]
    refine ⟨h1, ?_⟩
    unfold hfRecordedSeed
    rw [h1]
    exact hB _ _ _ hnr
  · intro request rand s data hseed hnr
    have h1 : hfSeed request rand = s := by simp [hfSeed, hseed]
    refine ⟨h1, ?_⟩
    unfold hfRecordedSeed
    rw [h1]
    exact hB _ _ _ hnr
  · intro request token status resp res h
    unfold a4fGenerate at h
    repeat' split at h
    any_goals cases h
    all_goals rfl

/-- C9 witness: seed behaviours at concrete requests and payloads. -/
theorem C9_seed_witness :
    (hfSeed ⟨"p", 512, 512, some "z-image-turbo", none, none⟩ 12345 = 12345 ∧
      hfRecordedSeed ⟨"p", 512, 512, some "z-image-turbo", none, none⟩ 12345
        [Json.str "https://u", Json.str "done"] = 12345) ∧
    (hfSeed ⟨"p", 512, 512, some "z-image-turbo", some 42, none⟩ 12345 = 42 ∧
      hfRecordedSeed ⟨"p", 512, 512, some "z-image-turbo", some 42, none⟩ 12345
        [Json.str "https://u", Json.str "done"] = 42) ∧
    parseSeedFromResponse "z-image-turbo" [Json.str "https://u"] 7 = 7 ∧
    (⟨"https://img.png", 0, "dall-e-3"⟩ : ImageResult).seed =
      ((⟨"a cat", 512, 512, some "dall-e-3", none, none⟩ : ImageRequest)).seed.getD 0 := by
  refine ⟨?_, ?_, ?_, ?_⟩
  · exact C9_seed_defaulting.1 ⟨"p", 512, 512, some "z-image-turbo", none, none⟩
      12345 [Json.str "https://u", Json.str "done"] rfl (by decide)
  · exact C9_seed_defaulting.2.1 ⟨"p", 512, 512, some "z-image-turbo", some 42, none⟩
      12345 42 [Json.str "https://u", Json.str "done"] rfl (by decide)
  · exact C9_seed_defaulting.2.2.1 "z-image-turbo" [Json.str "https://u"] 7
      (by decide)
  · exact C9_seed_defaulting.2.2.2
      ⟨"a cat", 512, 512, some "dall-e-3", none, none⟩
      (some "tok") 200 ⟨some [⟨some "https://img.png", none⟩], none⟩
      ⟨"https://img.png", 0, "dall-e-3"⟩ rfl

-- ---------------------------------------------------------------------------
-- C3: queue-submission retry policy
-- ---------------------------------------------------------------------------

/-- C3: the queue-submission loop of `callGradioApi` makes exactly 3 total
attempts under sustained 404/503 responses, sleeping 600ms then 1200ms
(attempt index times 600, non-decreasing) between attempts, and then
raises the error produced by the provider-error mapper for the final
response; a non-2xx status other than 404/503 at any point is classified
and raised immediately with exactly that one further attempt and no sleep;
a 2xx response lacking an event_id raises PROVIDER_ERROR. -/
theorem C3_submit_retry_policy :
    (∀ (responses : Nat → QueueResp) (url : String)
      (s0 s1 s2 : Nat) (t0 t1 t2 : String),
      responses 0 = .err s0 t0 → (s0 = 404 ∨ s0 = 503) →
      responses 1 = .err s1 t1 → (s1 = 404 ∨ s1 = 503) →
      responses 2 = .err s2 t2 → (s2 = 404 ∨ s2 = 503) →
      callGradioSubmit responses url =
        ⟨3, [600 * 1, 600 * 2],
          .error (parseHuggingFaceError (queueErrMsg s2 url t2) (some s2))⟩) ∧
    (∀ (responses : Nat → QueueResp) (url : String) (attempt fuel s : Nat)
      (t : String),
      responses attempt = .err s t → s ≠ 404 → s ≠ 503 →
      submitAttempts responses url attempt (fuel + 1) =
        ⟨1, [], .error (parseHuggingFaceError (queueErrMsg s url t) (some s))⟩) ∧
    (∀ (responses : Nat → QueueResp) (url : String),
      responses 0 = .ok none →
      callGradioSubmitResult responses url =
        .error (Errors.providerError PROVIDER_NAME
          "No event_id returned from queue")) := by
  refine ⟨?_, ?_, ?_⟩
  · intro responses url s0 s1 s2 t0 t1 t2 h0 hs0 h1 hs1 h2 hs2
    rcases hs0 with rfl | rfl <;> rcases hs1 with rfl | rfl <;>
      rcases hs2 with rfl | rfl <;>
      simp [callGradioSubmit, submitAttempts, MAX_GRADIO_RETRIES, h0, h1, h2]
  · intro responses url attempt fuel s t h h404 h503
    have hb : (s == 404 || s == 503) = false := by
      simp [h404, h503]
    simp [submitAttempts, h, hb]
  · intro responses url h0
    simp [callGradioSubmitResult, callGradioSubmit, submitAttempts,
      MAX_GRADIO_RETRIES, h0]

/-- C3 witness: the three submission behaviours at concrete transports. -/
theorem C3_submit_retry_witness :
    callGradioSubmit (fun _ => .err 503 "cold") "https://q" =
      ⟨3, [600 * 1, 600 * 2],
        .error (parseHuggingFaceError
          (queueErrMsg 503 "https://q" "cold") (some 503))⟩ ∧
    submitAttempts (fun _ => .err 400 "bad request") "https://q" 0 (2 + 1) =
      ⟨1, [], .error (parseHuggingFaceError
        (queueErrMsg 400 "https://q" "bad request") (some 400))⟩ ∧
    callGradioSubmitResult (fun _ => .ok none) "https://q" =
      .error (Errors.providerError PROVIDER_NAME
        "No event_id returned from queue") := by
  refine ⟨?_, ?_, ?_⟩
  · exact C3_submit_retry_policy.1 (fun _ => .err 503 "cold") "https://q"
      503 503 503 "cold" "cold" "cold" rfl (Or.inr rfl) rfl (Or.inr rfl)
      rfl (Or.inr rfl)
  · exact C3_submit_retry_policy.2.1 (fun _ => .err 400 "bad request")
      "https://q" 0 2 400 "bad request" rfl (by decide) (by decide)
  · exact C3_submit_retry_policy.2.2 (fun _ => .ok none) "https://q" rfl

-- ---------------------------------------------------------------------------
-- C4: SSE event-stream extraction
-- ---------------------------------------------------------------------------

/-- Trimming is unaffected by one leading space. -/
lemma jsTrim_space_cons (d : String) : jsTrim ⟨' ' :: d.data⟩ = jsTrim d := by
  have hws : jsIsWS ' ' = true := rfl
  simp [jsTrim, List.dropWhile, hws]

/-- C4: `extractCompleteEventData` tracks the last `event:` value; on a
body with `event: complete` then `data: [1,2,3]` it returns the parsed
payload at that first complete data line, whatever lines follow (the
stream is not drained); on `event: error` with `data: {"error":"boom"}` it
raises a PROVIDER_ERROR whose message is "boom"; the error message falls
back from the `error` field to the `message` field, then to the
stringified JSON, and to the raw data text when the error JSON does not
parse; a body with neither a complete nor an error event raises
PROVIDER_ERROR embedding the first 200 characters of the input. -/
theorem C4_extract_complete_event_data :
    (∀ (jp : String → Option Json) (js : Json → String) (j : Json)
      (rest : List String),
      jp "[1,2,3]" = some j →
      scanEvents jp js ("event: complete" :: "data: [1,2,3]" :: rest) "" =
        some (.ok j)) ∧
    (∀ (jp : String → Option Json) (js : Json → String) (j : Json),
      jp "[1,2,3]" = some j →
      extractCompleteEventData jp js "event: complete\ndata: [1,2,3]\n" =
        .ok j) ∧
    (∀ (jp : String → Option Json) (js : Json → String),
      jp "\x7b\"error\":\"boom\"\x7d" = some (.obj [("error", .str "boom")]) →
      extractCompleteEventData jp js
          "event: error\ndata: \x7b\"error\":\"boom\"\x7d\n" =
        .error (.api ⟨.PROVIDER_ERROR, "HuggingFace", "boom", none⟩)) ∧
    (∀ (js : Json → String) (s : String), s ≠ "" →
      errorMsgOf js (.obj [("error", .str s)]) = s) ∧
    (∀ (js : Json → String) (s : String), s ≠ "" →
      errorMsgOf js (.obj [("message", .str s)]) = s) ∧
    (∀ (js : Json → String) (j : Json),
      j.getProp "error" = none → j.getProp "message" = none → js j ≠ "" →
      errorMsgOf js j = js j) ∧
    (∀ (jp : String → Option Json) (js : Json → String) (d : String)
      (rest : List String),
      jp d = none → jsTrim d = d → d ≠ "" →
      scanEvents jp js ("event: error" :: ("data: " ++ d) :: rest) "" =
        some (.error (.api (parseHuggingFaceError d none)))) ∧
    (∀ (jp : String → Option Json) (js : Json → String) (body : String),
      scanEvents jp js (jsSplitLines body) "" = none →
      extractCompleteEventData jp js body =
        .error (.api (Errors.providerError PROVIDER_NAME
          ("Unexpected SSE response: " ++ jsTake body 200)))) := by
  refine ⟨?_, ?_, ?_, ?_, ?_, ?_, ?_, ?_⟩
  · intro jp js j rest hjp
    have e : scanEvents jp js ("event: complete" :: "data: [1,2,3]" :: rest) "" =
        some (match jp "[1,2,3]" with
          | some jj => .ok jj
          | none => .error (.jsSyntaxError "[1,2,3]")) := rfl
    rw [e, hjp]
  · intro jp js j hjp
    have e : extractCompleteEventData jp js "event: complete\ndata: [1,2,3]\n" =
        (match jp "[1,2,3]" with
          | some jj => .ok jj
          | none => .error (.jsSyntaxError "[1,2,3]")) := rfl
    rw [e, hjp]
  · intro jp js hjp
    have e : extractCompleteEventData jp js
        "event: error\ndata: \x7b\"error\":\"boom\"\x7d\n" =
        .error (.api (match jp "\x7b\"error\":\"boom\"\x7d" with
          | some j => parseHuggingFaceError (errorMsgOf js j) none
          | none =>
            parseHuggingFaceError "\x7b\"error\":\"boom\"\x7d" none)) := rfl
    rw [e, hjp]
    rfl
  · intro js s hs
    simp [errorMsgOf, Json.getProp, List.lookup, jsTruthy, hs]
  · intro js s hs
    simp [errorMsgOf, Json.getProp, List.lookup, jsTruthy, hs]
  · intro js j h1 h2 hjs
    simp [errorMsgOf, h1, h2, hjs]
  · intro jp js d rest hjp htrim hd
    have e : scanEvents jp js ("event: error" :: ("data: " ++ d) :: rest) "" =
        some (.error (.api (match jp (jsTrim (jsDrop ("data: " ++ d) 5)) with
          | some j => parseHuggingFaceError (errorMsgOf js j) none
          | none =>
            parseHuggingFaceError
              (if jsTrim (jsDrop ("data: " ++ d) 5) = "" then "Unknown SSE error"
                else jsTrim (jsDrop ("data: " ++ d) 5)) none))) := rfl
    have hjd : jsTrim (jsDrop ("data: " ++ d) 5) = d := by
      have h1 : jsDrop ("data: " ++ d) 5 = ⟨' ' :: d.data⟩ := rfl
      rw [h1, jsTrim_space_cons, htrim]
    rw [e, hjd, hjp, if_neg hd]
  · intro jp js body hscan
    unfold extractCompleteEventData
    rw [hscan]

/-- A concrete stand-in for the runtime `JSON.parse`, defined on exactly
the payloads exercised by the witnesses. -/
def jpW : String → Option Json := fun s =>
  if s = "[1,2,3]" then some (.arr [.num 1, .num 2, .num 3])
  else if s = "\x7b\"error\":\"boom\"\x7d" then
    some (.obj [("error", .str "boom")])
  else none

/-- A concrete stand-in for the runtime `JSON.stringify`. -/
def jsW : Json → String := fun _ => "stringified"

/-- C4 witness: the extraction behaviours at concrete bodies, with the
concrete parse/stringify stand-ins. -/
theorem C4_extract_witness :
    scanEvents jpW jsW
      ["event: complete", "data: [1,2,3]", "event: error", "data: ignored"] "" =
      some (.ok (.arr [.num 1, .num 2, .num 3])) ∧
    extractCompleteEventData jpW jsW "event: complete\ndata: [1,2,3]\n" =
      .ok (.arr [.num 1, .num 2, .num 3]) ∧
    extractCompleteEventData jpW jsW
        "event: error\ndata: \x7b\"error\":\"boom\"\x7d\n" =
      .error (.api ⟨.PROVIDER_ERROR, "HuggingFace", "boom", none⟩) ∧
    errorMsgOf jsW (.obj [("error", .str "boom")]) = "boom" ∧
    errorMsgOf jsW (.obj [("message", .str "a message")]) = "a message" ∧
    errorMsgOf jsW (.num 1) = jsW (.num 1) ∧
    scanEvents jpW jsW ["event: error", "data: " ++ "not-json"] "" =
      some (.error (.api (parseHuggingFaceError "not-json" none))) ∧
    extractCompleteEventData jpW jsW "hello" =
      .error (.api (Errors.providerError PROVIDER_NAME
        ("Unexpected SSE response: " ++ jsTake "hello" 200))) := by
  refine ⟨?_, ?_, ?_, ?_, ?_, ?_, ?_, ?_⟩
  · exact C4_extract_complete_event_data.1 jpW jsW
      (.arr [.num 1, .num 2, .num 3]) ["event: error", "data: ignored"] rfl
  · exact C4_extract_complete_event_data.2.1 jpW jsW
      (.arr [.num 1, .num 2, .num 3]) rfl
  · exact C4_extract_complete_event_data.2.2.1 jpW jsW rfl
  · exact C4_extract_complete_event_data.2.2.2.1 jsW "boom" (by decide)
  · exact C4_extract_complete_event_data.2.2.2.2.1 jsW "a message" (by decide)
  · exact C4_extract_complete_event_data.2.2.2.2.2.1 jsW (.num 1) rfl rfl
      (by decide)
  · exact C4_extract_complete_event_data.2.2.2.2.2.2.1 jpW jsW "not-json"
      [] rfl (by decide) (by decide)
  · exact C4_extract_complete_event_data.2.2.2.2.2.2.2 jpW jsW "hello" rfl
